import Mathlib

/-!
Shallow embedding of the movie discovery-and-ranking pipeline
(`movie_finder.py` and the GUI wrapper `Best New Movies/main.py`).

Python floats are modelled as exact rationals, Python ints as `Int`,
missing-or-None JSON fields as `Option`, and Python dicts as association
lists with last-binding-wins lookup.
-/

namespace MovieFinder

/-- Python dict lookup over an association list: the LAST binding of a key
wins, matching dict insertion/overwrite semantics. -/
def dictLookup {α β : Type} [DecidableEq α] : List (α × β) → α → Option β
  | [], _ => none
  | kv :: rest, k =>
    match dictLookup rest k with
    | some v => some v
    | none => if kv.1 = k then some kv.2 else none

/-- Python `str.lower()` restricted to the ASCII range the pipeline uses
(Python strings are sequences of code points; we model them through
`String.data`). -/
def pyLower (s : String) : String := (s.data.map Char.toLower).asString

/-- Python `str.strip()`: drop leading and trailing whitespace. -/
def pyStrip (s : String) : String :=
  (((s.data.dropWhile Char.isWhitespace).reverse.dropWhile Char.isWhitespace).reverse).asString

/-- Embeds `_norm` (movie_finder.py lines 133-135):
lowercase, then keep only the characters matched by `[a-z0-9]`
(everything else is stripped by the `re.sub`). -/
def pyNorm (s : String) : String :=
  ((pyLower s).data.filter fun c => ('a' ≤ c ∧ c ≤ 'z') ∨ ('0' ≤ c ∧ c ≤ '9')).asString

/-- Python string comparison: lexicographic on code points. -/
def lexLe : List Char → List Char → Bool
  | [], _ => true
  | _ :: _, [] => false
  | a :: as, b :: bs =>
    if a.toNat < b.toNat then true
    else if b.toNat < a.toNat then false
    else lexLe as bs

def strLe (a b : String) : Bool := lexLe a.data b.data

/-- Insertion into a sorted list of strings (used to model Python `sorted`). -/
def insertSorted (s : String) : List String → List String
  | [] => [s]
  | t :: ts => if strLe s t then s :: t :: ts else t :: insertSorted s ts

/-- Python `sorted(...)` on strings (insertion sort; code-point order). -/
def sortStrings (l : List String) : List String := l.foldr insertSorted []

/-- Python `sorted(set(l))`: de-duplicate, then sort ascending. -/
def pySortedSet (l : List String) : List String := sortStrings l.dedup

/-- One entry of a `flatrate`/`ads` provider list. `none` models a missing
field or one of the wrong runtime type (the code's `isinstance` checks skip
either the same way; a non-dict entry behaves like one with both fields
`none`). -/
structure ProvEntry where
  provider_id : Option ℤ
  provider_name : Option String
deriving DecidableEq

/-- The per-country provider payload: the two sections the code reads.
`none` models a missing key or a non-list value (both skipped). -/
structure ProviderSection where
  flatrate : Option (List ProvEntry)
  ads : Option (List ProvEntry)
deriving DecidableEq

/-- The body of the inner loop of `pick_flatrate_providers`: the stripped
name contributed by one provider entry, or nothing when the entry is
skipped (non-int id, id not allowed, non-string or blank name). -/
def pickEntry (allowed_ids : Finset ℤ) (item : ProvEntry) : Option String :=
  match item.provider_id with
  | some pid =>
    if pid ∈ allowed_ids then
      match item.provider_name with
      | some n => if pyStrip n ≠ "" then some (pyStrip n) else none
      | none => none
    else none
  | none => none

/-- The allowed-name extraction applied to one section list. -/
def pickSection (entries : List ProvEntry) (allowed_ids : Finset ℤ) : List String :=
  entries.filterMap (pickEntry allowed_ids)

/-- Embeds `pick_flatrate_providers` (movie_finder.py lines 298-330):
collect matching names from the `flatrate` then `ads` sections, then
`sorted(set(picked))`. -/
def pick_flatrate_providers (provider_section : ProviderSection)
    (allowed_ids : Finset ℤ) : List String :=
  pySortedSet (pickSection (provider_section.flatrate.getD []) allowed_ids
    ++ pickSection (provider_section.ads.getD []) allowed_ids)

/-- Embeds `resolve_preferred_ids` (movie_finder.py lines 178-190).
`names` is the preferred-provider set (order immaterial: the result is a
set); `id_map` the lowercased-name → id dict as an association list. -/
def resolve_preferred_ids (names : List String) (id_map : List (String × ℤ)) :
    Finset ℤ :=
  if names = [] then (id_map.map Prod.snd).toFinset
  else
    -- norm_to_pid = { _norm(k): v for k, v in id_map.items() }
    let norm_to_pid : List (String × ℤ) := id_map.map fun kv => (pyNorm kv.1, kv.2)
    -- matched = {norm_to_pid[n] for n in {_norm(x) for x in names} if n in norm_to_pid}
    ((names.map pyNorm).filterMap (dictLookup norm_to_pid)).toFinset

/-- Embeds the caller-side fallback in `main` (movie_finder.py lines
419-423): an empty resolved set is replaced with the full key set of the
id → name map. -/
def computeAllowedIds (names : List String) (id_map : List (String × ℤ))
    (id_to_name : List (ℤ × String)) : Finset ℤ :=
  let allowed := resolve_preferred_ids names id_map
  if allowed = ∅ then (id_to_name.map Prod.fst).toFinset else allowed

/-- Floor of a rational as an integer (den is positive, so `fdiv` floors). -/
def ratFloor (q : ℚ) : ℤ := q.num.fdiv q.den

/-- Python `round()` to an integer: round-half-to-even. -/
def pyRoundInt (q : ℚ) : ℤ :=
  let f := ratFloor q
  let r := q - f
  if r < 1/2 then f
  else if 1/2 < r then f + 1
  else if Even f then f else f + 1

/-- Python `round(x, 1)`: scale by 10, banker's-round, scale back. -/
def pyRound1 (q : ℚ) : ℚ := (pyRoundInt (10*q) : ℚ)/10

/-- A raw discovery record, with the fields `main` reads. `none` models a
missing field (and Python `None`, which the `or`-defaults collapse the same
way). -/
structure Candidate where
  title : Option String
  release_date : Option String
  vote_average : Option ℚ
  vote_count : Option ℤ
  popularity : Option ℚ
  genre_ids : Option (List ℤ)
deriving DecidableEq

/-- The enriched output record built by `main`'s loop (movie_finder.py
lines 440-449). -/
structure Movie where
  title : String
  year : String
  rating : ℚ
  votes : ℤ
  popularity : ℚ
  providers : String
  imdb_link : String
  genres : List String
deriving DecidableEq

/-- Embeds one iteration of `main`'s enrichment loop (movie_finder.py lines
429-449): the provider payload `wp` and the IMDb lookup result `imdb_id`
stand for the two per-movie fetches; `none` means the candidate is skipped
(`if not providers: continue`). -/
def movieFromCandidate (genre_map : List (ℤ × String)) (allowed_ids : Finset ℤ)
    (c : Candidate) (wp : ProviderSection) (imdb_id : Option String) :
    Option Movie :=
  let providers := pick_flatrate_providers wp allowed_ids
  if providers = [] then none
  else
    -- imdb_link = f"https://www.imdb.com/title/{imdb_id}/" if imdb_id else ""
    let imdb_link := match imdb_id with
      | some i => if i = "" then "" else "https://www.imdb.com/title/" ++ i ++ "/"
      | none => ""
    -- genres = [genre_map[g] for g in genre_ids if g in genre_map] or ["Uncategorized"]
    let gs := (c.genre_ids.getD []).filterMap (dictLookup genre_map)
    some
      { title := c.title.getD ""
        year := (c.release_date.getD "").take 4
        rating := pyRound1 (c.vote_average.getD 0)
        votes := c.vote_count.getD 0
        popularity := c.popularity.getD 0
        providers := String.intercalate ", " providers
        imdb_link := imdb_link
        genres := if gs = [] then ["Uncategorized"] else gs }

/-- Embeds `rank_score` (movie_finder.py lines 332-365).
`vote_average`, `vote_count`, `popularity` are `Option` because the Python
function accepts `None` (and non-int vote counts collapse to the 0 default
through the `isinstance` check). The literals 0.7/0.3/150/6.5 are exact
rationals. -/
def rank_score (vote_average : Option ℚ) (vote_count : Option ℤ)
    (popularity : Option ℚ) : ℚ :=
  -- v = max(0, vote_count if isinstance(vote_count, int) else 0)
  let v : ℤ := max 0 (vote_count.getD 0)
  -- R = max(0.0, min(10.0, float(vote_average if vote_average is not None else 0.0)))
  let R : ℚ := max 0 (min 10 (vote_average.getD 0))
  -- P = max(0.0, float(popularity if popularity is not None else 0.0))
  let P : ℚ := max 0 (popularity.getD 0)
  let m : ℚ := 150
  let C : ℚ := 13/2
  -- bayes = (v/(v+m))*R + (m/(v+m))*C
  let bayes : ℚ := ((v : ℚ)/((v : ℚ) + m))*R + (m/((v : ℚ) + m))*C
  -- norm_popularity = min(10.0, P/100.0)
  let norm_popularity : ℚ := min 10 (P/100)
  -- return 0.7*bayes + 0.3*norm_popularity
  (7/10)*bayes + (3/10)*norm_popularity

/-- A decoded JSON value (the possible results of `r.json()`). -/
inductive JsonVal where
  | obj (fields : List (String × JsonVal))
  | arr (items : List JsonVal)
  | str (s : String)
  | num (q : ℚ)
  | bool (b : Bool)
  | null

/-- The `isinstance(data, (dict, list))` check of `_get`. -/
def JsonVal.isStructured : JsonVal → Bool
  | .obj _ => true
  | .arr _ => true
  | _ => false

/-- Python truthiness of a JSON value. -/
def JsonVal.truthy : JsonVal → Bool
  | .obj fields => !fields.isEmpty
  | .arr items => !items.isEmpty
  | .str s => s != ""
  | .num q => q != 0
  | .bool b => b
  | .null => false

/-- Python `str(...)` of a JSON value. In the pipeline this is only applied
to truthy string values; the remaining cases are abstracted renderings. -/
def JsonVal.pyStr : JsonVal → String
  | .str s => s
  | .bool true => "True"
  | .bool false => "False"
  | .null => "None"
  | .num q => toString q
  | .obj _ => "object"
  | .arr _ => "array"

/-- Dict field access `fields.get(k)` on a decoded JSON object. -/
def jget (fields : List (String × JsonVal)) (k : String) : Option JsonVal :=
  dictLookup fields k

/-- What one attempt of `_get` observes from the network: either an HTTP
response (status, optional numeric Retry-After header, decoded body) or a
raised `requests.exceptions.RequestException` (timeout, connection error,
...). -/
inductive HttpEvent where
  | resp (status : ℕ) (retryAfter : Option ℤ) (body : JsonVal)
  | exn

/-- The exceptions that can escape the embedded functions. `SystemExit`
derives from `BaseException`, not `Exception`, so the bare
`except Exception` handlers of the callers do not catch the first four. -/
inductive PyExc where
  | systemExitAuth        -- SystemExit("TMDb authentication failed (401)...")
  | systemExitInvalid     -- SystemExit("Invalid response from TMDb API...")
  | systemExitFailedReach -- SystemExit("Failed to reach TMDb API after {retries} attempts...")
  | systemExitAllRetries  -- SystemExit("Failed to reach TMDb API after all retries")
  | requestException      -- a re-raised requests.exceptions.RequestException
deriving DecidableEq

/-- Whether `except Exception` fails to catch the exception (it propagates
and terminates the run). -/
def PyExc.isSystemExit : PyExc → Bool
  | .requestException => false
  | _ => true

/-- Python `int(q)` for a float: truncation toward zero. -/
def pyInt (q : ℚ) : ℤ := q.num.tdiv q.den

/-- The pre-attempt backoff of `_get`: `min(1.5 * (2 ** attempt), 10)`. -/
def backoffDelay (attempt : ℕ) : ℚ := min ((3/2) * 2 ^ attempt) 10

/-- The sleep taken on a 429:
`int(r.headers.get('Retry-After', 1.5 * (2 ** attempt)))`. A non-numeric
header (which would make `int(...)` raise) is outside the model. -/
def retryAfterDelay (ra : Option ℤ) (attempt : ℕ) : ℤ :=
  match ra with
  | some z => z
  | none => pyInt ((3/2) * 2 ^ attempt)

/-- The retry loop of `_get` (movie_finder.py lines 92-130). `fuel` counts
the iterations left of `for attempt in range(retries)` (so `_get` itself
starts it at `retries`); `attempt` is the loop variable, `lastExc` the
`last_exception` cell, and `sleeps` the recorded `time.sleep` calls.
Returns the raised exception or the decoded body, with the sleep log. -/
def getLoopAux (events : ℕ → HttpEvent) (retries : ℕ) :
    ℕ → ℕ → Option PyExc → List ℚ → Except PyExc JsonVal × List ℚ
  | 0, _, lastExc, sleeps =>
    -- loop exhausted: `raise last_exception` or SystemExit("... after all retries")
    (match lastExc with
     | some e => Except.error e
     | none => Except.error PyExc.systemExitAllRetries, sleeps)
  | fuel + 1, attempt, lastExc, sleeps =>
    -- if attempt > 0: time.sleep(min(1.5 * (2 ** attempt), 10))
    let sleeps := if 0 < attempt then sleeps ++ [backoffDelay attempt] else sleeps
    match events attempt with
    | .exn =>
      -- except requests.exceptions.RequestException
      if attempt = retries - 1 then (Except.error PyExc.systemExitFailedReach, sleeps)
      else getLoopAux events retries fuel (attempt + 1) (some PyExc.requestException) sleeps
    | .resp status ra body =>
      if status = 429 then
        -- time.sleep(retry_after); continue
        getLoopAux events retries fuel (attempt + 1) lastExc
          (sleeps ++ [(retryAfterDelay ra attempt : ℚ)])
      else if status = 401 then (Except.error PyExc.systemExitAuth, sleeps)
      else if 400 ≤ status ∧ status < 600 then
        -- r.raise_for_status() raises HTTPError, a RequestException
        if attempt = retries - 1 then (Except.error PyExc.systemExitFailedReach, sleeps)
        else getLoopAux events retries fuel (attempt + 1) (some PyExc.requestException) sleeps
      else
        -- data = r.json(); isinstance check; ValueError → SystemExit
        if body.isStructured then (Except.ok body, sleeps)
        else (Except.error PyExc.systemExitInvalid, sleeps)

/-- Embeds `_get(url, params, retries)`: run the loop from attempt 0. -/
def pyGet (events : ℕ → HttpEvent) (retries : ℕ) :
    Except PyExc JsonVal × List ℚ :=
  getLoopAux events retries retries 0 none []

/-- Embeds `get_watch_providers` (movie_finder.py lines 247-274): any
`Exception` from `_get` degrades to `{}`, but a `SystemExit` is not caught
and propagates; otherwise drill into `results[country]` with `isinstance`
guards, `{}` on any shape mismatch. -/
def get_watch_providers (events : ℕ → HttpEvent) (country : String) :
    Except PyExc (List (String × JsonVal)) :=
  match (pyGet events 3).1 with
  | .error e => if e.isSystemExit then .error e else .ok []
  | .ok data =>
    match data with
    | .obj fields =>
      match (jget fields "results").getD (.obj []) with
      | .obj rfields =>
        match (jget rfields country).getD (.obj []) with
        | .obj cfields => .ok cfields
        | _ => .ok []
      | _ => .ok []
    | _ => .ok []

/-- Embeds `get_imdb_id` (movie_finder.py lines 276-296): same exception
policy as `get_watch_providers`; a falsy or missing `imdb_id` gives
`None`. -/
def get_imdb_id (events : ℕ → HttpEvent) : Except PyExc (Option String) :=
  match (pyGet events 3).1 with
  | .error e => if e.isSystemExit then .error e else .ok none
  | .ok data =>
    match data with
    | .obj fields =>
      match jget fields "imdb_id" with
      | some v => if v.truthy then .ok (some v.pyStr) else .ok none
      | none => .ok none
    | _ => .ok none

/-- The page loop of `discover_new_movies` (movie_finder.py lines 207-245).
`events page` drives the `_get` of that page; `except Exception` skips the
page (`continue`), so only a `SystemExit` aborts the loop. Breaks when the
reported `total_pages` (default 1; Python `bool` counts as `int`) is
reached or malformed. -/
def discoverLoop (events : ℕ → ℕ → HttpEvent) :
    List ℕ → List JsonVal → Except PyExc (List JsonVal)
  | [], acc => .ok acc
  | page :: rest, acc =>
    match (pyGet (events page) 3).1 with
    | .error e =>
      if e.isSystemExit then .error e else discoverLoop events rest acc
    | .ok data =>
      match data with
      | .obj fields =>
        match (jget fields "results").getD (.arr []) with
        | .arr items =>
          let acc := acc ++ items
          match (jget fields "total_pages").getD (.num 1) with
          | .num t =>
            if t.den = 1 then (if t ≤ (page : ℚ) then .ok acc else discoverLoop events rest acc)
            else .ok acc  -- not an int: warn and break
          | .bool b =>
            -- Python bool is an int: True = 1, False = 0
            if (if b then (1 : ℚ) else 0) ≤ (page : ℚ) then .ok acc
            else discoverLoop events rest acc
          | _ => .ok acc  -- not an int: warn and break
        | _ => discoverLoop events rest acc  -- invalid results format: continue
      | _ => discoverLoop events rest acc  -- invalid response format: continue

/-- Embeds `discover_new_movies(country, since_days, pages)` restricted to
its fetch/pagination behaviour: `for page in range(1, pages + 1)`. -/
def discover_new_movies (events : ℕ → ℕ → HttpEvent) (pages : ℕ) :
    Except PyExc (List JsonVal) :=
  discoverLoop events (List.range' 1 pages) []

/-- The GUI's movie dict (Best New Movies/main.py lines 119-128); it keeps
the raw `imdb_id` instead of a formatted link. -/
structure GMovie where
  title : String
  year : String
  rating : ℚ
  votes : ℤ
  popularity : ℚ
  providers : String
  imdb_id : Option String
  genres : List String
deriving DecidableEq

/-- The bucket dict `movies_by_genre` as an association list. -/
abbrev Buckets := List (String × List GMovie)

/-- Python `d.setdefault(g, []).append(mv)` on the bucket dict: append to
the existing binding, or add a new key at the end. -/
def setdefaultAppend (d : Buckets) (g : String) (mv : GMovie) : Buckets :=
  if (dictLookup d g).isSome then
    d.map fun kv => if kv.1 = g then (kv.1, kv.2 ++ [mv]) else kv
  else d ++ [(g, [mv])]

/-- The inner loop `for genre in movie["genres"]`. -/
def addMovieGenres (d : Buckets) (mv : GMovie) : Buckets :=
  mv.genres.foldl (fun d g => setdefaultAppend d g mv) d

/-- Embeds the grouping stage of `MovieFinderApp.load_movies`
(Best New Movies/main.py lines 131-137): start from `{"All": movies}` and
append every movie to the bucket of each of its genres. (The Python dict
aliases the `movies` list it is iterating; the embedding is faithful as
long as no genre is literally named "All", which the grouping theorem
assumes.) -/
def movies_by_genre (movies : List GMovie) : Buckets :=
  movies.foldl addMovieGenres [("All", movies)]

/-- Reading a bucket: the dict's binding, or the empty list for a key that
is not present. -/
def getBucket (d : Buckets) (g : String) : List GMovie :=
  (dictLookup d g).getD []

/-- The GUI's rank key: `rank_score(x["rating"], x["votes"], x["popularity"])`. -/
def gRank (mv : GMovie) : ℚ :=
  rank_score (some mv.rating) (some mv.votes) (some mv.popularity)

/-- Python `list.sort(key=rank_score..., reverse=True)`: a stable sort into
descending key order. -/
def sortMovies (l : List GMovie) : List GMovie :=
  l.mergeSort fun a b => decide (gRank b ≤ gRank a)

/-- A bucket of the grouped-and-sorted result
(Best New Movies/main.py lines 131-144). -/
def movies_by_genre_sorted (movies : List GMovie) (g : String) : List GMovie :=
  sortMovies (getBucket (movies_by_genre movies) g)

/-- Unfolded form of `rank_score`, for calculation. -/
lemma rank_score_eq (va : Option ℚ) (vc : Option ℤ) (p : Option ℚ) :
    rank_score va vc p =
      (7/10)*((((max 0 (vc.getD 0) : ℤ) : ℚ)/(((max 0 (vc.getD 0) : ℤ) : ℚ) + 150))*(max 0 (min 10 (va.getD 0)))
        + (150/(((max 0 (vc.getD 0) : ℤ) : ℚ) + 150))*(13/2))
      + (3/10)*(min 10 ((max 0 (p.getD 0))/100)) := rfl

/-- The Bayesian-smoothed rating stays within [0, 10] whenever the
(sanitized) rating does and the vote weight is non-negative. -/
lemma bayes_bounds (t R : ℚ) (ht : 0 ≤ t) (h0 : 0 ≤ R) (h1 : R ≤ 10) :
    0 ≤ (t/(t + 150))*R + (150/(t + 150))*(13/2)
      ∧ (t/(t + 150))*R + (150/(t + 150))*(13/2) ≤ 10 := by
  have hd : (0:ℚ) < t + 150 := by linarith
  have heq : (t/(t + 150))*R + (150/(t + 150))*(13/2)
      = (t*R + 975)/(t + 150) := by
    field_simp
    ring
  constructor
  · rw [heq]
    apply div_nonneg _ (le_of_lt hd)
    nlinarith
  · rw [heq, div_le_iff₀ hd]
    nlinarith

/-- Bayesian smoothing is monotone in the vote weight in the direction of
the sign of `R - 6.5`. -/
lemma bayes_mono (a b R : ℚ) (ha : 0 ≤ a) (hab : a ≤ b) (hR : 13/2 ≤ R) :
    (a/(a + 150))*R + (150/(a + 150))*(13/2)
      ≤ (b/(b + 150))*R + (150/(b + 150))*(13/2) := by
  have hda : (0:ℚ) < a + 150 := by linarith
  have hdb : (0:ℚ) < b + 150 := by linarith
  have heqa : (a/(a + 150))*R + (150/(a + 150))*(13/2)
      = (a*R + 975)/(a + 150) := by field_simp; ring
  have heqb : (b/(b + 150))*R + (150/(b + 150))*(13/2)
      = (b*R + 975)/(b + 150) := by field_simp; ring
  rw [heqa, heqb, div_le_div_iff₀ hda hdb]
  nlinarith [mul_nonneg (sub_nonneg.mpr hab) (by linarith : (0:ℚ) ≤ 150*R - 975)]

/-- Bayesian smoothing shrinks toward the prior mean: with a rating at or
below 6.5, more votes can only lower the smoothed value. -/
lemma bayes_anti (a b R : ℚ) (ha : 0 ≤ a) (hab : a ≤ b) (hR : R ≤ 13/2) :
    (b/(b + 150))*R + (150/(b + 150))*(13/2)
      ≤ (a/(a + 150))*R + (150/(a + 150))*(13/2) := by
  have hda : (0:ℚ) < a + 150 := by linarith
  have hdb : (0:ℚ) < b + 150 := by linarith
  have heqa : (a/(a + 150))*R + (150/(a + 150))*(13/2)
      = (a*R + 975)/(a + 150) := by field_simp; ring
  have heqb : (b/(b + 150))*R + (150/(b + 150))*(13/2)
      = (b*R + 975)/(b + 150) := by field_simp; ring
  rw [heqa, heqb, div_le_div_iff₀ hdb hda]
  nlinarith [mul_nonneg (sub_nonneg.mpr hab) (by linarith : (0:ℚ) ≤ 975 - 150*R)]

/-- C1. For every input triple with rating in [0, 10], a non-negative vote
count and a non-negative popularity, `rank_score` returns a value in the
closed interval [0, 10]. -/
theorem rank_score_in_unit_range (r : ℚ) (v : ℤ) (p : ℚ)
    (h0 : 0 ≤ r) (h1 : r ≤ 10) (hv : 0 ≤ v) (hp : 0 ≤ p) :
    0 ≤ rank_score (some r) (some v) (some p) ∧
      rank_score (some r) (some v) (some p) ≤ 10 := by
  rw [rank_score_eq]
  simp only [Option.getD_some]
  rw [max_eq_right hv, min_eq_right h1, max_eq_right h0, max_eq_right hp]
  have ht : (0:ℚ) ≤ (v:ℚ) := by exact_mod_cast hv
  obtain ⟨hb0, hb1⟩ := bayes_bounds (v:ℚ) r ht h0 h1
  have hn0 : (0:ℚ) ≤ min 10 (p/100) := le_min (by norm_num) (by positivity)
  have hn1 : min 10 (p/100) ≤ (10:ℚ) := min_le_left _ _
  constructor <;> nlinarith

/-- Witness for C1: the bound at rating 8, 500 votes, popularity 45. -/
theorem rank_score_in_unit_range_witness :
    0 ≤ rank_score (some 8) (some 500) (some 45) ∧
      rank_score (some 8) (some 500) (some 45) ≤ 10 :=
  rank_score_in_unit_range 8 500 45 (by norm_num) (by norm_num)
    (by norm_num) (by norm_num)

/-- C2. Holding rating (in [0, 10]) and popularity fixed, `rank_score` is
non-decreasing in the vote count when the rating exceeds the prior mean
6.5, and non-increasing in the vote count when the rating is below 6.5. -/
theorem rank_score_vote_monotone (r p : ℚ) (v1 v2 : ℤ)
    (h0 : 0 ≤ r) (h1 : r ≤ 10) (hv : v1 ≤ v2) :
    (13/2 < r →
      rank_score (some r) (some v1) (some p) ≤ rank_score (some r) (some v2) (some p))
    ∧ (r < 13/2 →
      rank_score (some r) (some v2) (some p) ≤ rank_score (some r) (some v1) (some p)) := by
  rw [rank_score_eq, rank_score_eq]
  simp only [Option.getD_some]
  rw [min_eq_right h1, max_eq_right h0]
  have ha : (0:ℚ) ≤ ((max 0 v1 : ℤ) : ℚ) := by exact_mod_cast le_max_left 0 v1
  have hab : ((max 0 v1 : ℤ) : ℚ) ≤ ((max 0 v2 : ℤ) : ℚ) := by
    exact_mod_cast max_le_max le_rfl hv
  constructor
  · intro hr
    have := bayes_mono ((max 0 v1 : ℤ) : ℚ) ((max 0 v2 : ℤ) : ℚ) r ha hab (le_of_lt hr)
    linarith
  · intro hr
    have := bayes_anti ((max 0 v1 : ℤ) : ℚ) ((max 0 v2 : ℤ) : ℚ) r ha hab (le_of_lt hr)
    linarith

/-- Witness for C2: at rating 8 (above 6.5) the score at 10 votes is at
most the score at 500 votes; at rating 5 (below 6.5) the reverse. -/
theorem rank_score_vote_monotone_witness :
    (rank_score (some 8) (some 10) (some 45) ≤ rank_score (some 8) (some 500) (some 45))
    ∧ (rank_score (some 5) (some 500) (some 45) ≤ rank_score (some 5) (some 10) (some 45)) :=
  ⟨(rank_score_vote_monotone 8 45 10 500 (by norm_num) (by norm_num) (by norm_num)).1
      (by norm_num),
    (rank_score_vote_monotone 5 45 10 500 (by norm_num) (by norm_num) (by norm_num)).2
      (by norm_num)⟩

/-- C10. `rank_score` is total: whatever the inputs — `None` rating,
`None`/negative vote count, `None` popularity — the sanitized vote count
keeps the Bayesian denominator `v + 150` nonzero and the result is a
well-defined value (always within [0, 10]). -/
theorem rank_score_total (va : Option ℚ) (vc : Option ℤ) (p : Option ℚ) :
    ((max 0 (vc.getD 0) : ℤ) : ℚ) + 150 ≠ 0
    ∧ 0 ≤ rank_score va vc p ∧ rank_score va vc p ≤ 10 := by
  have hv : (0:ℚ) ≤ ((max 0 (vc.getD 0) : ℤ) : ℚ) := by
    exact_mod_cast le_max_left 0 (vc.getD 0)
  refine ⟨by positivity, ?_, ?_⟩ <;>
  · rw [rank_score_eq]
    have h0 : (0:ℚ) ≤ max 0 (min 10 (va.getD 0)) := le_max_left _ _
    have h1 : max 0 (min 10 (va.getD 0)) ≤ (10:ℚ) :=
      max_le (by norm_num) (min_le_left _ _)
    obtain ⟨hb0, hb1⟩ := bayes_bounds _ _ hv h0 h1
    have hp : (0:ℚ) ≤ max 0 (p.getD 0) := le_max_left _ _
    have hn0 : (0:ℚ) ≤ min 10 ((max 0 (p.getD 0))/100) :=
      le_min (by norm_num) (by positivity)
    have hn1 : min 10 ((max 0 (p.getD 0))/100) ≤ (10:ℚ) := min_le_left _ _
    nlinarith

/-- If every attempt draws a 429 response and no earlier exception was
recorded, the loop runs out of attempts and raises the final
`SystemExit`. -/
lemma all429_exhausts (events : ℕ → HttpEvent) (retries : ℕ)
    (h : ∀ j, ∃ ra b, events j = HttpEvent.resp 429 ra b) :
    ∀ fuel attempt sleeps,
      (getLoopAux events retries fuel attempt none sleeps).1
        = .error .systemExitAllRetries := by
  intro fuel
  induction fuel with
  | zero => intro attempt sleeps; simp [getLoopAux]
  | succ n ih =>
    intro attempt sleeps
    obtain ⟨ra, b, hev⟩ := h attempt
    simp only [getLoopAux, hev, if_pos rfl]
    apply ih

/-- C4. When a response's body decodes to a non-structured JSON value
(neither object nor array) on a non-error status, `_get` raises the
"Invalid response" `SystemExit` at once: the outcome is the same however
much fuel (remaining attempts) the loop still has. -/
theorem invalid_body_no_retry (events : ℕ → HttpEvent)
    (retries fuel attempt : ℕ) (lastExc : Option PyExc) (sleeps : List ℚ)
    (status : ℕ) (ra : Option ℤ) (body : JsonVal)
    (hev : events attempt = .resp status ra body)
    (hs0 : 200 ≤ status) (hs1 : status < 400)
    (hbody : body.isStructured = false) :
    (getLoopAux events retries (fuel + 1) attempt lastExc sleeps).1
      = .error .systemExitInvalid := by
  have h429 : status ≠ 429 := by omega
  have h401 : status ≠ 401 := by omega
  have hr : ¬(400 ≤ status ∧ status < 600) := by omega
  simp [getLoopAux, hev, h429, h401, hr, hbody]

/-- Witness for C4: a 200 response whose body is the bare number 3 fails
immediately even with the full three attempts left. -/
theorem invalid_body_no_retry_witness :
    (getLoopAux (fun _ => .resp 200 none (.num 3)) 3 3 0 none []).1
      = .error .systemExitInvalid :=
  invalid_body_no_retry (fun _ => .resp 200 none (.num 3)) 3 2 0 none [] 200
    none (.num 3) rfl (by norm_num) (by norm_num) rfl

/-- C5. A 401 response makes `_get` raise `SystemExit` on the spot, and —
because `SystemExit` is not an `Exception` — the swallow-everything
handlers of `get_watch_providers`, `get_imdb_id` and the per-page discovery
loop all let it propagate, terminating the run. -/
theorem auth_error_terminates_run
    (events2 : ℕ → HttpEvent) (retries fuel attempt : ℕ)
    (lastExc : Option PyExc) (sleeps : List ℚ) (ra : Option ℤ) (body : JsonVal)
    (events : ℕ → HttpEvent) (pevents : ℕ → ℕ → HttpEvent)
    (country : String) (pages : ℕ)
    (hev : events2 attempt = .resp 401 ra body)
    (h : (pyGet events 3).1 = .error .systemExitAuth)
    (hp : (pyGet (pevents 1) 3).1 = .error .systemExitAuth)
    (hpages : 1 ≤ pages) :
    (getLoopAux events2 retries (fuel + 1) attempt lastExc sleeps).1
      = .error .systemExitAuth
    ∧ get_watch_providers events country = .error .systemExitAuth
    ∧ get_imdb_id events = .error .systemExitAuth
    ∧ discover_new_movies pevents pages = .error .systemExitAuth := by
  refine ⟨?_, ?_, ?_, ?_⟩
  · simp [getLoopAux, hev]
  · simp [get_watch_providers, h, PyExc.isSystemExit]
  · simp [get_imdb_id, h, PyExc.isSystemExit]
  · obtain ⟨k, rfl⟩ : ∃ k, pages = k + 1 := ⟨pages - 1, by omega⟩
    simp [discover_new_movies, List.range'_succ, discoverLoop, hp,
      PyExc.isSystemExit]

/-- Witness for C5: with every request answered 401, the enrichment
fetches and the discovery loop all surface the authentication
`SystemExit`. -/
theorem auth_error_terminates_run_witness :
    (getLoopAux (fun _ => .resp 401 none .null) 3 3 0 none []).1
      = .error .systemExitAuth
    ∧ get_watch_providers (fun _ => .resp 401 none .null) "US"
      = .error .systemExitAuth
    ∧ get_imdb_id (fun _ => .resp 401 none .null) = .error .systemExitAuth
    ∧ discover_new_movies (fun _ _ => .resp 401 none .null) 5
      = .error .systemExitAuth :=
  auth_error_terminates_run (fun _ => .resp 401 none .null) 3 2 0 none [] none
    .null (fun _ => .resp 401 none .null) (fun _ _ => .resp 401 none .null)
    "US" 5 rfl rfl rfl (by norm_num)

/-- C6 (counterexample). Three consecutive 429 responses exhaust the
default three attempts and the call fails with the final `SystemExit` —
refuting "a 429 response never causes the call to fail". -/
theorem rate_limit_exhaustion_cex :
    (pyGet (fun _ => .resp 429 none .null) 3).1
      = .error .systemExitAllRetries :=
  all429_exhausts (fun _ => .resp 429 none .null) 3
    (fun _ => ⟨none, .null, rfl⟩) 3 0 []

/-- C6 (amended). On a 429 the helper sleeps the server-supplied
Retry-After duration when present (else the truncated backoff value) and
retries — but each 429 consumes an attempt, and when every attempt draws a
429 the call fails once the attempts are exhausted. -/
theorem rate_limit_retry_policy :
    (∀ (events : ℕ → HttpEvent) (retries fuel attempt : ℕ)
        (lastExc : Option PyExc) (sleeps : List ℚ) (ra : Option ℤ)
        (body : JsonVal) (fl : List (String × JsonVal)),
      events attempt = .resp 429 ra body →
      events (attempt + 1) = .resp 200 none (.obj fl) →
      (getLoopAux events retries (fuel + 2) attempt lastExc sleeps).1
          = .ok (.obj fl)
        ∧ (retryAfterDelay ra attempt : ℚ)
            ∈ (getLoopAux events retries (fuel + 2) attempt lastExc sleeps).2)
    ∧ ∀ (events : ℕ → HttpEvent) (retries : ℕ),
        (∀ j, ∃ ra b, events j = HttpEvent.resp 429 ra b) →
        (pyGet events retries).1 = .error .systemExitAllRetries := by
  constructor
  · intro events retries fuel attempt lastExc sleeps ra body fl hev hev2
    have h401 : (200 : ℕ) ≠ 401 := by norm_num
    have h429 : (200 : ℕ) ≠ 429 := by norm_num
    have hr : ¬((400:ℕ) ≤ 200 ∧ (200:ℕ) < 600) := by norm_num
    constructor
    · simp [getLoopAux, hev, hev2, h401, h429, hr, JsonVal.isStructured]
    · simp [getLoopAux, hev, hev2, h401, h429, hr, JsonVal.isStructured]
  · intro events retries h
    exact all429_exhausts events retries h retries 0 []

/-- Inserting into a sorted list never yields the empty list. -/
lemma insertSorted_ne_nil (s : String) (l : List String) :
    insertSorted s l ≠ [] := by
  cases l with
  | nil => simp [insertSorted]
  | cons t ts =>
    simp only [insertSorted]
    split <;> simp

/-- A sort returns the empty list exactly on the empty list. -/
lemma sortStrings_eq_nil (l : List String) : sortStrings l = [] ↔ l = [] := by
  cases l with
  | nil => simp [sortStrings]
  | cons a as =>
    simp only [sortStrings, List.foldr_cons]
    exact ⟨fun h => absurd h (insertSorted_ne_nil a _), fun h => by simp at h⟩

/-- `sorted(set(l))` is empty exactly when `l` is. -/
lemma pySortedSet_eq_nil (l : List String) : pySortedSet l = [] ↔ l = [] := by
  rw [pySortedSet, sortStrings_eq_nil, List.dedup_eq_nil]

/-- When an entry contributes a name: its id is an allowed int and its name
is a string that is non-blank after stripping. -/
lemma pickEntry_ne_none (allowed_ids : Finset ℤ) (e : ProvEntry) :
    pickEntry allowed_ids e ≠ none ↔
      ∃ pid, e.provider_id = some pid ∧ pid ∈ allowed_ids
        ∧ ∃ n, e.provider_name = some n ∧ pyStrip n ≠ "" := by
  obtain ⟨pid?, n?⟩ := e
  cases pid? with
  | none => simp [pickEntry]
  | some pid =>
    by_cases hpid : pid ∈ allowed_ids
    · cases n? with
      | none => simp [pickEntry, hpid]
      | some n =>
        by_cases hn : pyStrip n = "" <;> simp [pickEntry, hpid, hn]
    · simp [pickEntry, hpid]

/-- C7. The allowed-provider set is the full directory in the two fallback
situations: `resolve_preferred_ids` of an empty name set is every id of the
name → id map, and when the preferred names match nothing the caller
replaces the empty resolution with every id of the id → name map;
otherwise the matched set is used as-is. -/
theorem allow_all_provider_fallback (names : List String)
    (id_map : List (String × ℤ)) (id_to_name : List (ℤ × String)) :
    (names = [] →
      resolve_preferred_ids names id_map = (id_map.map Prod.snd).toFinset)
    ∧ (resolve_preferred_ids names id_map = ∅ →
      computeAllowedIds names id_map id_to_name = (id_to_name.map Prod.fst).toFinset)
    ∧ (resolve_preferred_ids names id_map ≠ ∅ →
      computeAllowedIds names id_map id_to_name = resolve_preferred_ids names id_map) := by
  refine ⟨fun h => ?_, fun h => ?_, fun h => ?_⟩
  · subst h; simp [resolve_preferred_ids]
  · simp [computeAllowedIds, h]
  · simp [computeAllowedIds, h]

/-- Witness for C7: "Scream Box" matches nothing in a Netflix-only
directory, so the caller falls back to the full id set; an empty name set
resolves to all ids directly. -/
theorem allow_all_provider_fallback_witness :
    (resolve_preferred_ids [] [("netflix", 8), ("hulu", 15)]
      = ([("netflix", 8), ("hulu", 15)].map Prod.snd).toFinset)
    ∧ computeAllowedIds ["Scream Box"] [("netflix", 8)] [(8, "Netflix")]
      = ([(8, "Netflix")].map Prod.fst).toFinset :=
  ⟨(allow_all_provider_fallback [] [("netflix", 8), ("hulu", 15)] []).1 rfl,
    (allow_all_provider_fallback ["Scream Box"] [("netflix", 8)]
        [(8, "Netflix")]).2.1 (by decide)⟩

/-- C8. A candidate becomes a Movie exactly when its picked provider-name
list is non-empty; that list is non-empty exactly when some `flatrate` or
`ads` entry carries an allowed integer id and a non-blank name; and a
candidate all of whose entry ids fall outside the allowed set yields no
Movie. -/
theorem movie_included_iff_allowed_provider (genre_map : List (ℤ × String))
    (allowed_ids : Finset ℤ) (c : Candidate) (wp : ProviderSection)
    (imdb_id : Option String) :
    (movieFromCandidate genre_map allowed_ids c wp imdb_id = none
      ↔ pick_flatrate_providers wp allowed_ids = [])
    ∧ (pick_flatrate_providers wp allowed_ids ≠ [] ↔
        ∃ e ∈ wp.flatrate.getD [] ++ wp.ads.getD [], ∃ pid,
          e.provider_id = some pid ∧ pid ∈ allowed_ids
          ∧ ∃ n, e.provider_name = some n ∧ pyStrip n ≠ "")
    ∧ ((∀ e ∈ wp.flatrate.getD [] ++ wp.ads.getD [],
          ∀ pid, e.provider_id = some pid → pid ∉ allowed_ids) →
        movieFromCandidate genre_map allowed_ids c wp imdb_id = none) := by
  have hpick : pick_flatrate_providers wp allowed_ids
      = pySortedSet ((wp.flatrate.getD [] ++ wp.ads.getD []).filterMap
          (pickEntry allowed_ids)) := by
    rw [pick_flatrate_providers, List.filterMap_append]
    rfl
  have hnone : movieFromCandidate genre_map allowed_ids c wp imdb_id = none
      ↔ pick_flatrate_providers wp allowed_ids = [] := by
    rw [movieFromCandidate.eq_def]
    split
    · simp_all
    · simp_all
  refine ⟨hnone, ?_, ?_⟩
  · rw [hpick, Ne, pySortedSet_eq_nil, List.filterMap_eq_nil_iff]
    push_neg
    constructor
    · rintro ⟨e, he, hne⟩
      exact ⟨e, he, (pickEntry_ne_none allowed_ids e).mp hne⟩
    · rintro ⟨e, he, hx⟩
      exact ⟨e, he, (pickEntry_ne_none allowed_ids e).mpr hx⟩
  · intro h
    rw [hnone, hpick, pySortedSet_eq_nil, List.filterMap_eq_nil_iff]
    intro e he
    by_contra hne
    obtain ⟨pid, hpid, hmem, -⟩ := (pickEntry_ne_none allowed_ids e).mp hne
    exact h e he pid hpid hmem

/-- Witness for C8: one allowed Netflix flatrate entry yields a Movie; the
same candidate with only a disallowed id yields none. -/
theorem movie_included_iff_allowed_provider_witness :
    pick_flatrate_providers ⟨some [⟨some 8, some "Netflix"⟩], none⟩ {8} ≠ []
    ∧ movieFromCandidate [] {8} ⟨none, none, none, none, none, none⟩
        ⟨some [⟨some 337, some "Disney Plus"⟩], none⟩ none = none :=
  ⟨(movie_included_iff_allowed_provider [] {8}
      ⟨none, none, none, none, none, none⟩
      ⟨some [⟨some 8, some "Netflix"⟩], none⟩ none).2.1.mpr
      ⟨⟨some 8, some "Netflix"⟩, by decide, 8, rfl, by decide, "Netflix", rfl,
        by decide⟩,
    (movie_included_iff_allowed_provider [] {8}
      ⟨none, none, none, none, none, none⟩
      ⟨some [⟨some 337, some "Disney Plus"⟩], none⟩ none).2.2
      (by rintro e he pid hpid; simp at he; subst he; simp at hpid; subst hpid; decide)⟩

/-- C3 (counterexample). The enrichment stage does not clamp the numeric
fields: a candidate carrying `vote_count = -5` and `popularity = -3` is
accepted with those negative values, so "coerced to a non-negative
integer/float" fails. -/
theorem enrichment_negative_values_cex :
    (movieFromCandidate [] {8}
        ⟨some "X", some "2025-01-17", some 7, some (-5), some (-3), some []⟩
        ⟨some [⟨some 8, some "Netflix"⟩], none⟩ none).map
      (fun m => (m.votes, m.popularity)) = some (-5, -3)
    ∧ (-5 : ℤ) < 0 ∧ (-3 : ℚ) < 0 :=
  ⟨rfl, by decide, by decide⟩

/-- C3 (amended). For every accepted record the enrichment stage sets:
rating to `vote_average` (default 0.0 when missing) rounded to 1 decimal —
so ten times it is an integer; votes to the integer vote count with
default 0 (not clamped, so possibly negative); popularity to the float
popularity with default 0.0 (possibly negative); and year to the first
4 characters of the release-date string (empty when missing). -/
theorem enrichment_coercions (genre_map : List (ℤ × String))
    (allowed_ids : Finset ℤ) (c : Candidate) (wp : ProviderSection)
    (imdb_id : Option String) (m : Movie)
    (h : movieFromCandidate genre_map allowed_ids c wp imdb_id = some m) :
    m.rating = pyRound1 (c.vote_average.getD 0)
    ∧ (m.rating * 10).den = 1
    ∧ m.votes = c.vote_count.getD 0
    ∧ m.popularity = c.popularity.getD 0
    ∧ m.year = (c.release_date.getD "").take 4 := by
  rw [movieFromCandidate.eq_def] at h
  dsimp only [] at h
  by_cases hp : pick_flatrate_providers wp allowed_ids = []
  · rw [if_pos hp] at h
    exact Option.noConfusion h
  · rw [if_neg hp, Option.some_inj] at h
    obtain ⟨mt, my, mr, mv, mp, mpr, mi, mg⟩ := m
    rw [Movie.mk.injEq] at h
    obtain ⟨h1, h2, h3, h4, h5, h6, h7, h8⟩ := h
    refine ⟨h3.symm, ?_, h4.symm, h5.symm, h2.symm⟩
    rw [← h3, pyRound1, div_mul_cancel₀ _ (by norm_num : (10:ℚ) ≠ 0), Rat.den_intCast]

/-- Witness for C3's amended claim: the all-defaults candidate streamed on
Netflix gets rating `round(0.0, 1)`, votes 0, popularity 0.0 and an empty
year. -/
theorem enrichment_coercions_witness :
    (⟨"", "", pyRound1 0, 0, 0, "Netflix", "", ["Uncategorized"]⟩ : Movie).rating
        = pyRound1 ((none : Option ℚ).getD 0)
    ∧ (((⟨"", "", pyRound1 0, 0, 0, "Netflix", "", ["Uncategorized"]⟩ : Movie).rating) * 10).den = 1
    ∧ (⟨"", "", pyRound1 0, 0, 0, "Netflix", "", ["Uncategorized"]⟩ : Movie).votes
        = (none : Option ℤ).getD 0
    ∧ (⟨"", "", pyRound1 0, 0, 0, "Netflix", "", ["Uncategorized"]⟩ : Movie).popularity
        = (none : Option ℚ).getD 0
    ∧ (⟨"", "", pyRound1 0, 0, 0, "Netflix", "", ["Uncategorized"]⟩ : Movie).year
        = ((none : Option String).getD "").take 4 :=
  have h : movieFromCandidate [] {8} ⟨none, none, none, none, none, none⟩
      ⟨some [⟨some 8, some "Netflix"⟩], none⟩ none
      = some ⟨"", "", pyRound1 0, 0, 0, "Netflix", "", ["Uncategorized"]⟩ := rfl
  enrichment_coercions [] {8} ⟨none, none, none, none, none, none⟩
    ⟨some [⟨some 8, some "Netflix"⟩], none⟩ none
    ⟨"", "", pyRound1 0, 0, 0, "Netflix", "", ["Uncategorized"]⟩ h

/-- Appending a fresh binding at the end is only seen by lookups of its
key. -/
lemma dictLookup_append_single (d : Buckets) (g g' : String) (x : List GMovie) :
    dictLookup (d ++ [(g, x)]) g' = if g' = g then some x else dictLookup d g' := by
  induction d with
  | nil =>
    by_cases h : g' = g
    · subst h; simp [dictLookup]
    · have h2 : ¬(g = g') := fun e => h e.symm
      simp [dictLookup, h, h2]
  | cons kv rest ih =>
    by_cases h : g' = g
    · subst h
      cases hdl : dictLookup (rest ++ [(g', x)]) g' <;>
        simp_all [dictLookup, ih]
    · cases hdl : dictLookup rest g' <;> simp_all [dictLookup, ih]

/-- Appending `mv` to every binding of key `g` is seen exactly by lookups
of `g`. -/
lemma dictLookup_map_append (d : Buckets) (g g' : String) (mv : GMovie) :
    dictLookup (d.map fun kv => if kv.1 = g then (kv.1, kv.2 ++ [mv]) else kv) g'
      = if g' = g then (dictLookup d g').map (fun l => l ++ [mv])
        else dictLookup d g' := by
  induction d with
  | nil => by_cases h : g' = g <;> simp [dictLookup, h]
  | cons kv rest ih =>
    obtain ⟨k, v⟩ := kv
    have hpair : (if (k, v).1 = g then ((k, v).1, (k, v).2 ++ [mv]) else (k, v))
        = (k, if k = g then v ++ [mv] else v) := by
      by_cases hk : k = g <;> simp [hk]
    by_cases h : g' = g
    · subst h
      by_cases hk : k = g'
      · subst hk
        cases hdl : dictLookup rest k <;>
          simp [dictLookup, hpair, ih, hdl]
      · cases hdl : dictLookup rest g' <;>
          simp [dictLookup, hpair, ih, hdl, hk]
    · by_cases hk : k = g'
      · have hkg : ¬ k = g := fun e => h (hk.symm.trans e)
        cases hdl : dictLookup rest g' <;>
          simp [dictLookup, hpair, ih, hdl, hk, hkg, h]
      · cases hdl : dictLookup rest g' <;>
          simp [dictLookup, hpair, ih, hdl, hk, h]

/-- The effect of one `setdefault(g, []).append(mv)` on every bucket. -/
lemma getBucket_setdefaultAppend (d : Buckets) (g g' : String) (mv : GMovie) :
    getBucket (setdefaultAppend d g mv) g'
      = if g' = g then getBucket d g' ++ [mv] else getBucket d g' := by
  unfold setdefaultAppend
  by_cases hs : (dictLookup d g).isSome
  · rw [if_pos hs]
    rw [getBucket, dictLookup_map_append]
    by_cases h : g' = g
    · subst h
      obtain ⟨x, hx⟩ := Option.isSome_iff_exists.mp hs
      simp [getBucket, hx]
    · simp [getBucket, h]
  · rw [if_neg hs]
    rw [getBucket, dictLookup_append_single]
    by_cases h : g' = g
    · subst h
      rw [Option.not_isSome_iff_eq_none] at hs
      simp [getBucket, hs]
    · simp [getBucket, h]

/-- Folding one movie over its genre list appends one copy of the movie to
bucket `g` per occurrence of `g` in the list. -/
lemma getBucket_foldl_genres (gs : List String) (d : Buckets) (mv : GMovie)
    (g : String) :
    getBucket (gs.foldl (fun acc g' => setdefaultAppend acc g' mv) d) g
      = getBucket d g ++ List.replicate (gs.count g) mv := by
  induction gs generalizing d with
  | nil => simp
  | cons a gs ih =>
    rw [List.foldl_cons, ih, getBucket_setdefaultAppend]
    by_cases h : g = a
    · subst h
      simp [List.count_cons, List.replicate_succ, List.append_assoc]
    · simp [List.count_cons, h]

/-- The cumulative effect of the outer movie loop on every bucket. -/
lemma getBucket_foldl_addMovie (ms : List GMovie) (d : Buckets) (g : String) :
    getBucket (ms.foldl addMovieGenres d) g
      = getBucket d g
        ++ ms.flatMap (fun mv => List.replicate (mv.genres.count g) mv) := by
  induction ms generalizing d with
  | nil => simp
  | cons mv ms ih =>
    rw [List.foldl_cons, addMovieGenres.eq_def, ih, getBucket_foldl_genres]
    simp [List.append_assoc]

/-- Reading the initial dict `{"All": movies}`. -/
lemma getBucket_init (movies : List GMovie) (g : String) :
    getBucket [("All", movies)] g = if g = "All" then movies else [] := by
  by_cases h : g = "All"
  · subst h; simp [getBucket, dictLookup]
  · have h2 : ¬("All" = g) := fun e => h e.symm
    simp [getBucket, dictLookup, h, h2]

/-- Closed form of every bucket of the grouped dict. -/
lemma getBucket_movies_by_genre (movies : List GMovie) (g : String) :
    getBucket (movies_by_genre movies) g
      = (if g = "All" then movies else [])
        ++ movies.flatMap (fun mv => List.replicate (mv.genres.count g) mv) := by
  rw [movies_by_genre, getBucket_foldl_addMovie, getBucket_init]

/-- C9. A qualifying movie (appearing once in the qualifying list, with no
genre literally named "All") appears exactly once in the "All" bucket of
the grouped-and-sorted result, and lies in a per-genre bucket exactly for
the entries of its genres list — in no other bucket. -/
theorem grouping_all_and_genre_buckets (movies : List GMovie) (mv : GMovie)
    (hmem : mv ∈ movies) (hcount : movies.count mv = 1)
    (hall : ∀ m' ∈ movies, "All" ∉ m'.genres) :
    (movies_by_genre_sorted movies "All").count mv = 1
    ∧ ∀ g, g ≠ "All" →
        (mv ∈ movies_by_genre_sorted movies g ↔ g ∈ mv.genres) := by
  constructor
  · rw [movies_by_genre_sorted, sortMovies,
      (List.mergeSort_perm _ _).count_eq, getBucket_movies_by_genre]
    have hfm : movies.flatMap
        (fun m' => List.replicate (m'.genres.count "All") m') = [] := by
      rw [List.flatMap_eq_nil_iff]
      intro m' hm'
      rw [List.count_eq_zero.mpr (hall m' hm')]
      simp
    simp [hfm, hcount]
  · intro g hg
    rw [movies_by_genre_sorted, sortMovies, (List.mergeSort_perm _ _).mem_iff,
      getBucket_movies_by_genre, if_neg hg]
    simp only [List.nil_append, List.mem_flatMap, List.mem_replicate]
    constructor
    · rintro ⟨m', hm', hcnt, rfl⟩
      exact List.count_pos_iff.mp (Nat.pos_of_ne_zero hcnt)
    · intro hgen
      exact ⟨mv, hmem, Nat.pos_iff_ne_zero.mp (List.count_pos_iff.mpr hgen), rfl⟩

/-- Witness for C9: a single Action movie appears once in "All", is in the
"Action" bucket, and in no bucket of an unrelated genre. -/
theorem grouping_all_and_genre_buckets_witness :
    (movies_by_genre_sorted [⟨"T", "2025", 8, 500, 45, "Netflix", none, ["Action"]⟩]
        "All").count ⟨"T", "2025", 8, 500, 45, "Netflix", none, ["Action"]⟩ = 1
    ∧ ∀ g, g ≠ "All" →
        ((⟨"T", "2025", 8, 500, 45, "Netflix", none, ["Action"]⟩ : GMovie)
            ∈ movies_by_genre_sorted
              [⟨"T", "2025", 8, 500, 45, "Netflix", none, ["Action"]⟩] g
          ↔ g ∈ (⟨"T", "2025", 8, 500, 45, "Netflix", none, ["Action"]⟩ : GMovie).genres) :=
  grouping_all_and_genre_buckets
    [⟨"T", "2025", 8, 500, 45, "Netflix", none, ["Action"]⟩]
    ⟨"T", "2025", 8, 500, 45, "Netflix", none, ["Action"]⟩
    (by decide) (by decide) (by decide)

end MovieFinder
